import Mathlib

/-!
Shallow embedding of the RMM maturity-assessment scoring pipeline
(`src/scoring.py`, `src/utils.py`).

Conventions:
* floats are modelled as `ℚ`; a float field that the code can set to `NaN`
  is modelled as `Option ℚ` with `none` standing for `NaN`;
* a pandas DataFrame of responses is a list of rows together with flags
  recording which optional columns are present (`'col' in df.columns`);
* `np.percentile` is the linear-interpolation percentile, `np.median` is the
  50th percentile and propagates `NaN`; the pandas `Series.mean` skips `NaN`.
-/

namespace RMM

/-- A row of `factors.csv` (the factor catalog). -/
structure Factor where
  factor_id : String
  area : String
  factor_name : String
  weight : ℚ
  target_level : ℚ
  owner_group : String
  evidence_required : Bool
deriving DecidableEq, Repr

/-- A row of `responses.csv`.  `proficiency_level`, `coverage_level`,
`confidence` and `evidence_link` are optional; `none` stands for `NaN`. -/
structure Response where
  cycle_id : String
  respondent_id : String
  org_group : String
  factor_id : String
  level : ℚ
  proficiency_level : Option ℚ
  coverage_level : Option ℚ
  confidence : Option ℚ
  evidence_link : Option String
deriving DecidableEq, Repr

/-- The responses DataFrame: its rows plus which optional columns exist. -/
structure ResponsesDF where
  rows : List Response
  has_prof : Bool
  has_cov : Bool
  has_conf : Bool
deriving DecidableEq, Repr

/-- A row of `actions.csv` (the improvement-action catalog). -/
structure Action where
  action_id : String
  factor_id : String
  if_level_leq : ℚ
  action_text : String
  impact : ℚ
  effort : ℚ
  timeframe : String
  dependency_action_id : Option String
deriving DecidableEq, Repr

/-- A row of the DataFrame returned by `compute_factor_scores`: the per-factor
statistics merged (line 131 of `scoring.py`) with the factor's catalog columns. -/
structure FactorScore where
  factor_id : String
  median_level : Option ℚ
  mean_level : Option ℚ
  proficiency_median : Option ℚ
  coverage_median : Option ℚ
  n_responses : ℕ
  dispersion : Option ℚ
  confidence_avg : Option ℚ
  evidence_rate : Option ℚ
  index_raw : ℚ
  quality_penalty : ℚ
  index_adjusted : ℚ
  area : String
  factor_name : String
  weight : ℚ
  target_level : ℚ
  owner_group : String
  evidence_required : Bool
deriving DecidableEq, Repr

/-- A row of the DataFrame returned by `compute_gap_analysis`. -/
structure Gap where
  factor_id : String
  factor_name : String
  area : String
  current_level : ℚ
  target_level : ℚ
  gap_levels : ℚ
  proficiency_level : Option ℚ
  coverage_level : Option ℚ
  action_id : String
  action_text : String
  transition : String
  impact : ℚ
  effort : ℚ
  timeframe : String
  priority_score : ℚ
  owner_group : String
deriving DecidableEq, Repr

/-- A row of the DataFrame returned by `compute_area_scores`. -/
structure AreaScore where
  area : String
  area_index : ℚ
  area_level : ℤ
  n_factors : ℕ
  avg_responses : ℚ
  avg_proficiency : Option ℚ
  avg_coverage : Option ℚ
deriving DecidableEq, Repr

/-- Linear interpolation of a sorted sample `s` at virtual index `h`:
`s[⌊h⌋] + (h-⌊h⌋)·(s[⌊h⌋+1] - s[⌊h⌋])`, the upper index clamped to the
last position. -/
def interpAt (s : List ℚ) (h : ℚ) : ℚ :=
  s.getD (⌊h⌋).toNat 0 +
    (h - (⌊h⌋ : ℚ)) *
      (s.getD (min ((⌊h⌋).toNat + 1) (s.length - 1)) 0 - s.getD (⌊h⌋).toNat 0)

/-- Model of `np.percentile(xs, q)` with the default linear interpolation: sort, then
interpolate at virtual index `q/100 * (n-1)` (0 on empty input, which numpy
reports as `NaN`; the pipeline never takes a percentile of an empty list). -/
def percentileD (xs : List ℚ) (q : ℚ) : ℚ :=
  if xs.isEmpty then 0
  else interpAt (xs.insertionSort (fun a b => a ≤ b)) (q * ((xs.length : ℚ) - 1) / 100)

/-- Model of `np.median` over a column that may contain `NaN` (`none`): any `NaN`
poisons the result, otherwise it is the 50th linear percentile. -/
def medianStrict (xs : List (Option ℚ)) : Option ℚ :=
  if xs.any (fun x => x.isNone) then none
  else if xs.isEmpty then none
  else some (percentileD (xs.filterMap id) 50)

/-- pandas `Series.mean`: skips `NaN` values, `NaN` when nothing remains. -/
def meanSkipNA (xs : List (Option ℚ)) : Option ℚ :=
  let vs := xs.filterMap id
  if vs.isEmpty then none else some (vs.sum / vs.length)

/-- Python `round` (half-to-even, as used on `area_index`). -/
def roundHalfEven (x : ℚ) : ℤ :=
  let f := ⌊x⌋
  let r := x - f
  if r < 1/2 then f
  else if 1/2 < r then f + 1
  else if f % 2 = 0 then f else f + 1

/-- Python `int()` on a rational: truncation toward zero. -/
def intTrunc (x : ℚ) : ℤ := x.num.tdiv x.den

/-- Embedding of `validate_responses` (`scoring.py` lines 13-23): keep rows whose
`factor_id` is in the catalog and whose `level` lies in `[1,5]`; when the
optional rating columns exist, their values must lie in `[1,5]` as well
(pandas `between` is `False` on `NaN`, so a `none` in a present column drops
the row).  Column flags are unchanged. -/
def validate_responses (df : ResponsesDF) (factors : List Factor) : ResponsesDF :=
  let valid := factors.map (fun f => f.factor_id)
  let r1 := df.rows.filter (fun r => valid.contains r.factor_id)
  let r2 := r1.filter (fun r => decide (1 ≤ r.level ∧ r.level ≤ 5))
  let r3 :=
    if df.has_prof then
      r2.filter (fun r =>
        match r.proficiency_level with
        | some v => decide (1 ≤ v ∧ v ≤ 5)
        | none => false)
    else r2
  let r4 :=
    if df.has_cov then
      r3.filter (fun r =>
        match r.coverage_level with
        | some v => decide (1 ≤ v ∧ v ≤ 5)
        | none => false)
    else r3
  { df with rows := r4 }

/-- The cycle/group selection at the top of `compute_factor_scores`
(lines 42-44): the group restriction runs only under
`org_group_filter and org_group_filter != 'All'`, i.e. for a non-`None`,
non-empty filter string different from `'All'`. -/
def applyGroupFilter (filt : Option String) (rows : List Response) : List Response :=
  match filt with
  | none => rows
  | some s => if s ≠ "" ∧ s ≠ "All" then rows.filter (fun r => r.org_group == s) else rows

/-- Line 71: `levels = factor_responses['level'].values`. -/
def levelsOf (rs : List Response) : List ℚ := rs.map (fun r => r.level)

/-- Line 72: `median_level = float(np.median(levels))`. -/
def medOf (rs : List Response) : ℚ := percentileD (levelsOf rs) 50

/-- Line 73: `mean_level = float(np.mean(levels))`. -/
def meanOf (rs : List Response) : ℚ := (levelsOf rs).sum / (levelsOf rs).length

/-- Lines 75-76: `dispersion = float(q75 - q25)` with `q75, q25 = np.percentile(levels,
[75, 25])` (lines 75-76). -/
def dispOf (rs : List Response) : ℚ :=
  percentileD (levelsOf rs) 75 - percentileD (levelsOf rs) 25

/-- Lines 96-99, `evidence_rate`: fraction of responses with a non-null
evidence link, forced to 1.0 when the factor does not require evidence. -/
def evRateOf (f : Factor) (rs : List Response) : ℚ :=
  if f.evidence_required then (rs.countP (fun r => r.evidence_link.isSome) : ℚ) / rs.length
  else 1

/-- The quality penalty of Appendix A7 (lines 105-111). -/
def penaltyOf (f : Factor) (rs : List Response) : ℚ :=
  (if rs.length < 3 then (1 : ℚ)/2 else 0) +
  (if (3 : ℚ)/2 < dispOf rs then (1 : ℚ)/2 else 0) +
  (if f.evidence_required ∧ evRateOf f rs < 1/2 then (1 : ℚ)/2 else 0)

/-- The body of the per-factor loop of `compute_factor_scores`
(lines 50-128), given the factor's catalog row and its matching responses. -/
def scoreFactor (has_prof has_cov has_conf : Bool) (f : Factor) (rs : List Response) :
    FactorScore :=
  if rs.isEmpty then
    { factor_id := f.factor_id, median_level := none, mean_level := none,
      proficiency_median := none, coverage_median := none, n_responses := 0,
      dispersion := none, confidence_avg := none, evidence_rate := some 0,
      index_raw := 1, quality_penalty := 0, index_adjusted := 1,
      area := f.area, factor_name := f.factor_name, weight := f.weight,
      target_level := f.target_level, owner_group := f.owner_group,
      evidence_required := f.evidence_required }
  else
    { factor_id := f.factor_id, median_level := some (medOf rs),
      mean_level := some (meanOf rs),
      proficiency_median :=
        if has_prof then medianStrict (rs.map (fun r => r.proficiency_level))
        else some (medOf rs),
      coverage_median :=
        if has_cov then medianStrict (rs.map (fun r => r.coverage_level))
        else some (medOf rs),
      n_responses := rs.length,
      dispersion := some (dispOf rs),
      confidence_avg :=
        if has_conf then meanSkipNA (rs.map (fun r => r.confidence))
        else some (7/2),
      evidence_rate := some (evRateOf f rs),
      index_raw := medOf rs,
      quality_penalty := penaltyOf f rs,
      index_adjusted := max 1 (medOf rs - penaltyOf f rs),
      area := f.area, factor_name := f.factor_name, weight := f.weight,
      target_level := f.target_level, owner_group := f.owner_group,
      evidence_required := f.evidence_required }

/-- Embedding of `compute_factor_scores` (`scoring.py` lines 30-132): select the cycle,
optionally restrict to a group, and emit one (catalog-merged) row per factor
of the catalog, in catalog order. -/
def computeFactorScores (df : ResponsesDF) (factors : List Factor) (cycle_id : String)
    (filt : Option String) : List FactorScore :=
  let cycleData := df.rows.filter (fun r => r.cycle_id == cycle_id)
  let data := applyGroupFilter filt cycleData
  factors.map (fun f =>
    scoreFactor df.has_prof df.has_cov df.has_conf f
      (data.filter (fun r => r.factor_id == f.factor_id)))

/-- One Gap row of `compute_gap_analysis` (lines 216-254) for a factor-score
row and one applicable action. -/
def mkGap (row : FactorScore) (a : Action) : Gap :=
  let current := row.median_level.getD 1
  let gap := max 0 (row.target_level - current)
  let from_lvl := intTrunc a.if_level_leq
  let base := a.impact * gap * row.weight / max a.effort 1
  let qf : ℚ :=
    if 0 < row.n_responses then
      (min 1 ((row.n_responses : ℚ) / 5)) *
      (match row.dispersion with
       | some d => max 0 (1 - d / 2)
       | none => 1/2) *
      row.evidence_rate.getD 0
    else 1/10
  { factor_id := row.factor_id, factor_name := row.factor_name, area := row.area,
    current_level := current, target_level := row.target_level, gap_levels := gap,
    proficiency_level := row.proficiency_median, coverage_level := row.coverage_median,
    action_id := a.action_id, action_text := a.action_text,
    transition := "Level " ++ toString from_lvl ++ " → " ++ toString (from_lvl + 1),
    impact := a.impact, effort := a.effort, timeframe := a.timeframe,
    priority_score := base * qf, owner_group := row.owner_group }

/-- The per-factor part of `compute_gap_analysis` (lines 201-254): skip the
factor when `gap_levels ≤ 0`, otherwise one Gap row per action of the factor
with `if_level_leq ≥ current_level`. -/
def gapsForRow (row : FactorScore) (actions : List Action) : List Gap :=
  let current := row.median_level.getD 1
  let gap := max 0 (row.target_level - current)
  if gap ≤ 0 then []
  else
    (actions.filter
      (fun a => a.factor_id == row.factor_id && decide (current ≤ a.if_level_leq))).map
      (mkGap row)

/-- Ordering of Gap rows used by the final `sort_values('priority_score',
ascending=False)`. -/
def gapGE (g1 g2 : Gap) : Prop := g2.priority_score ≤ g1.priority_score

instance : DecidableRel gapGE := fun a b =>
  inferInstanceAs (Decidable (b.priority_score ≤ a.priority_score))

instance : IsTotal Gap gapGE :=
  ⟨fun a b => (le_total b.priority_score a.priority_score).imp id id⟩

instance : IsTrans Gap gapGE :=
  ⟨fun _ _ _ h1 h2 => le_trans h2 h1⟩

/-- Embedding of `compute_gap_analysis` (`scoring.py` lines 194-259). -/
def computeGapAnalysis (scores : List FactorScore) (actions : List Action) : List Gap :=
  ((scores.map (fun row => gapsForRow row actions)).flatten).insertionSort gapGE

/-- First-occurrence de-duplication, following pandas `Series.unique`. -/
def uniqueKeysAux (seen : List String) : List String → List String
  | [] => []
  | a :: rest =>
    if a ∈ seen then uniqueKeysAux seen rest else a :: uniqueKeysAux (a :: seen) rest

/-- The body of the per-area loop of `compute_area_scores` (lines 145-167). -/
def areaScoreFor (a : String) (af : List FactorScore) : AreaScore :=
  let total_weight := (af.map (fun r => r.weight)).sum
  let area_index : ℚ :=
    if 0 < total_weight then
      (af.map (fun r => r.index_adjusted * r.weight)).sum / total_weight
    else 1
  { area := a, area_index := area_index,
    area_level := min 5 (max 1 (roundHalfEven area_index)),
    n_factors := af.length,
    avg_responses := (af.map (fun r => (r.n_responses : ℚ))).sum / af.length,
    avg_proficiency := meanSkipNA (af.map (fun r => r.proficiency_median)),
    avg_coverage := meanSkipNA (af.map (fun r => r.coverage_median)) }

/-- Embedding of `compute_area_scores` (`scoring.py` lines 139-169): one row per distinct
`area` value, in order of first appearance. -/
def computeAreaScores (scores : List FactorScore) : List AreaScore :=
  (uniqueKeysAux [] (scores.map (fun r => r.area))).map
    (fun a => areaScoreFor a (scores.filter (fun r => r.area == a)))

/-- Embedding of `get_combined_maturity_quadrant` (`utils.py` lines 104-121). -/
def get_combined_maturity_quadrant (proficiency coverage : ℚ) : String :=
  let p_high := decide (3 ≤ proficiency)
  let c_high := decide (3 ≤ coverage)
  if p_high && c_high then "Institutional maturity and stable programme"
  else if p_high && !c_high then "Strong practices not yet scaled across the organisation"
  else if !p_high && c_high then "Widespread implementation requiring quality improvement"
  else "Early-stage capability requiring structural improvements"

/-! ### Helper lemmas -/

lemma getD_mem {s : List ℚ} {i : ℕ} (h : i < s.length) (d : ℚ) : s.getD i d ∈ s := by
  rw [List.getD_eq_getElem?_getD, List.getElem?_eq_getElem h]
  exact List.getElem_mem h

lemma lerp_bounds {a b L H t : ℚ} (hL1 : a ≤ L) (hL2 : L ≤ b) (hH1 : a ≤ H) (hH2 : H ≤ b)
    (ht0 : 0 ≤ t) (ht1 : t ≤ 1) : a ≤ L + t * (H - L) ∧ L + t * (H - L) ≤ b := by
  constructor
  · nlinarith [mul_nonneg ht0 (sub_nonneg.mpr hH1),
      mul_nonneg (sub_nonneg.mpr ht1) (sub_nonneg.mpr hL1)]
  · nlinarith [mul_nonneg ht0 (sub_nonneg.mpr hH2),
      mul_nonneg (sub_nonneg.mpr ht1) (sub_nonneg.mpr hL2)]

lemma interpAt_bounds {s : List ℚ} {h a b : ℚ} (hne : s ≠ [])
    (h0 : 0 ≤ h) (h1 : h ≤ (s.length : ℚ) - 1)
    (hb : ∀ x ∈ s, a ≤ x ∧ x ≤ b) :
    a ≤ interpAt s h ∧ interpAt s h ≤ b := by
  have hpos : 0 < s.length := List.length_pos.mpr hne
  have hi0 : 0 ≤ ⌊h⌋ := Int.floor_nonneg.mpr h0
  have hile : ((⌊h⌋ : ℤ) : ℚ) ≤ h := Int.floor_le h
  have hlt1 : h < ⌊h⌋ + 1 := Int.lt_floor_add_one h
  have hin : ⌊h⌋ ≤ (s.length : ℤ) - 1 := by
    have h2 : ((⌊h⌋ : ℤ) : ℚ) ≤ (((s.length : ℤ) - 1 : ℤ) : ℚ) := by push_cast; linarith
    exact_mod_cast h2
  have hitlt : (⌊h⌋).toNat < s.length := by omega
  have hminlt : min ((⌊h⌋).toNat + 1) (s.length - 1) < s.length := by omega
  have hlo := hb _ (getD_mem hitlt 0)
  have hhi := hb _ (getD_mem hminlt 0)
  have ht0 : 0 ≤ h - ((⌊h⌋ : ℤ) : ℚ) := by linarith
  have ht1 : h - ((⌊h⌋ : ℤ) : ℚ) ≤ 1 := by push_cast at hlt1 ⊢; linarith
  unfold interpAt
  exact lerp_bounds hlo.1 hlo.2 hhi.1 hhi.2 ht0 ht1

lemma percentileD_bounds {xs : List ℚ} {q a b : ℚ} (hne : xs ≠ [])
    (hq0 : 0 ≤ q) (hq1 : q ≤ 100) (hb : ∀ x ∈ xs, a ≤ x ∧ x ≤ b) :
    a ≤ percentileD xs q ∧ percentileD xs q ≤ b := by
  have hemp : xs.isEmpty = false := by
    cases xs with
    | nil => exact absurd rfl hne
    | cons x t => rfl
  unfold percentileD
  rw [hemp]
  simp only [Bool.false_eq_true, if_false]
  have hperm := List.perm_insertionSort (fun a b : ℚ => a ≤ b) xs
  have hsne : xs.insertionSort (fun a b : ℚ => a ≤ b) ≠ [] := by
    intro hcon
    rw [hcon] at hperm
    exact hne hperm.symm.eq_nil
  have hslen : (xs.insertionSort (fun a b : ℚ => a ≤ b)).length = xs.length := hperm.length_eq
  have hpos : 0 < xs.length := List.length_pos.mpr hne
  have hn1 : (1 : ℚ) ≤ (xs.length : ℚ) := by exact_mod_cast hpos
  apply interpAt_bounds hsne
  · apply div_nonneg _ (by norm_num)
    apply mul_nonneg hq0
    linarith
  · rw [hslen, div_le_iff₀ (by norm_num : (0 : ℚ) < 100)]
    have hmul : q * ((xs.length : ℚ) - 1) ≤ 100 * ((xs.length : ℚ) - 1) :=
      mul_le_mul_of_nonneg_right hq1 (by linarith)
    linarith
  · intro x hx
    exact hb x (hperm.mem_iff.mp hx)

lemma mem_applyGroupFilter {filt : Option String} {rows : List Response} {r : Response}
    (h : r ∈ applyGroupFilter filt rows) : r ∈ rows := by
  cases filt with
  | none => exact h
  | some s =>
    simp only [applyGroupFilter] at h
    by_cases hc : s ≠ "" ∧ s ≠ "All"
    · rw [if_pos hc] at h
      exact (List.mem_filter.mp h).1
    · rwa [if_neg hc] at h

lemma scoreFactor_n_responses (hp hc hcf : Bool) (f : Factor) (rs : List Response) :
    (scoreFactor hp hc hcf f rs).n_responses = rs.length := by
  unfold scoreFactor
  cases rs with
  | nil => rfl
  | cons x t => rfl

lemma mem_uniqueKeysAux {x : String} :
    ∀ {seen l : List String}, x ∈ uniqueKeysAux seen l → x ∈ l := by
  intro seen l
  induction l generalizing seen with
  | nil => intro h; exact absurd h (List.not_mem_nil x)
  | cons a rest ih =>
    intro hx
    unfold uniqueKeysAux at hx
    by_cases h : a ∈ seen
    · rw [if_pos h] at hx
      exact List.mem_cons_of_mem _ (ih hx)
    · rw [if_neg h] at hx
      rcases List.mem_cons.mp hx with rfl | hx
      · exact List.mem_cons_self _ _
      · exact List.mem_cons_of_mem _ (ih hx)

lemma mem_gapsForRow {row : FactorScore} {actions : List Action} {g : Gap} :
    g ∈ gapsForRow row actions ↔
      ∃ a ∈ actions,
        0 < max 0 (row.target_level - row.median_level.getD 1) ∧
        a.factor_id = row.factor_id ∧
        row.median_level.getD 1 ≤ a.if_level_leq ∧
        g = mkGap row a := by
  unfold gapsForRow
  by_cases hgap : max 0 (row.target_level - row.median_level.getD 1) ≤ 0
  · rw [if_pos hgap]
    simp only [List.not_mem_nil, false_iff]
    rintro ⟨a, _, hpos, _⟩
    exact absurd hpos (not_lt.mpr hgap)
  · rw [if_neg hgap]
    push_neg at hgap
    constructor
    · intro hm
      obtain ⟨a, ha, rfl⟩ := List.mem_map.mp hm
      obtain ⟨ha, hcond⟩ := List.mem_filter.mp ha
      simp only [Bool.and_eq_true, beq_iff_eq, decide_eq_true_eq] at hcond
      exact ⟨a, ha, hgap, hcond.1, hcond.2, rfl⟩
    · rintro ⟨a, ha, _, hfid, hlev, rfl⟩
      refine List.mem_map.mpr ⟨a, List.mem_filter.mpr ⟨ha, ?_⟩, rfl⟩
      simp only [Bool.and_eq_true, beq_iff_eq, decide_eq_true_eq]
      exact ⟨hfid, hlev⟩

lemma mem_computeGapAnalysis {scores : List FactorScore} {actions : List Action} {g : Gap} :
    g ∈ computeGapAnalysis scores actions ↔
      ∃ row ∈ scores, ∃ a ∈ actions,
        0 < max 0 (row.target_level - row.median_level.getD 1) ∧
        a.factor_id = row.factor_id ∧
        row.median_level.getD 1 ≤ a.if_level_leq ∧
        g = mkGap row a := by
  unfold computeGapAnalysis
  rw [List.mem_insertionSort, List.mem_flatten]
  constructor
  · rintro ⟨l, hl, hg⟩
    obtain ⟨row, hrow, rfl⟩ := List.mem_map.mp hl
    obtain ⟨a, ha, hcond⟩ := mem_gapsForRow.mp hg
    exact ⟨row, hrow, a, ha, hcond⟩
  · rintro ⟨row, hrow, a, ha, hcond⟩
    exact ⟨gapsForRow row actions, List.mem_map.mpr ⟨row, hrow, rfl⟩,
      mem_gapsForRow.mpr ⟨a, ha, hcond⟩⟩

lemma sorted_computeGapAnalysis (scores : List FactorScore) (actions : List Action) :
    List.Sorted gapGE (computeGapAnalysis scores actions) :=
  List.sorted_insertionSort gapGE _

lemma gap_levels_mkGap (row : FactorScore) (a : Action) :
    (mkGap row a).gap_levels = max 0 (row.target_level - row.median_level.getD 1) := rfl

lemma sum_map_le_of_le {af : List FactorScore} {hi : ℚ}
    (h : ∀ r ∈ af, r.index_adjusted ≤ hi) (hw : ∀ r ∈ af, 0 ≤ r.weight) :
    (af.map (fun r => r.index_adjusted * r.weight)).sum ≤
      hi * (af.map (fun r => r.weight)).sum := by
  induction af with
  | nil => simp
  | cons r rest ih =>
    simp only [List.map_cons, List.sum_cons, mul_add]
    have h1 : r.index_adjusted * r.weight ≤ hi * r.weight :=
      mul_le_mul_of_nonneg_right (h r (List.mem_cons_self r rest)) (hw r (List.mem_cons_self r rest))
    have h2 := ih (fun x hx => h x (List.mem_cons_of_mem _ hx))
      (fun x hx => hw x (List.mem_cons_of_mem _ hx))
    exact add_le_add h1 h2

lemma le_sum_map_of_le {af : List FactorScore} {lo : ℚ}
    (h : ∀ r ∈ af, lo ≤ r.index_adjusted) (hw : ∀ r ∈ af, 0 ≤ r.weight) :
    lo * (af.map (fun r => r.weight)).sum ≤
      (af.map (fun r => r.index_adjusted * r.weight)).sum := by
  induction af with
  | nil => simp
  | cons r rest ih =>
    simp only [List.map_cons, List.sum_cons, mul_add]
    have h1 : lo * r.weight ≤ r.index_adjusted * r.weight :=
      mul_le_mul_of_nonneg_right (h r (List.mem_cons_self r rest)) (hw r (List.mem_cons_self r rest))
    have h2 := ih (fun x hx => h x (List.mem_cons_of_mem _ hx))
      (fun x hx => hw x (List.mem_cons_of_mem _ hx))
    exact add_le_add h1 h2

lemma sum_weights_pos {af : List FactorScore} (hne : af ≠ [])
    (hw : ∀ r ∈ af, 0 < r.weight) : 0 < (af.map (fun r => r.weight)).sum := by
  cases af with
  | nil => exact absurd rfl hne
  | cons r rest =>
    simp only [List.map_cons, List.sum_cons]
    have hrest : 0 ≤ (rest.map (fun r => r.weight)).sum := by
      apply List.sum_nonneg
      intro x hx
      obtain ⟨y, hy, rfl⟩ := List.mem_map.mp hx
      exact le_of_lt (hw y (List.mem_cons_of_mem _ hy))
    linarith [hw r (List.mem_cons_self r rest)]

lemma isSome_false_eq_none {o : Option ℚ} (h : o.isSome = false) : o = none := by
  cases o with
  | none => rfl
  | some v => simp at h

lemma length_pos_isEmpty_false {α : Type _} {l : List α} (h : 0 < l.length) :
    l.isEmpty = false := by
  cases l with
  | nil => simp at h
  | cons a t => rfl

lemma scoreFactor_of_not_empty (hp hc hcf : Bool) (f : Factor) (rs : List Response)
    (hne : rs.isEmpty = false) :
    scoreFactor hp hc hcf f rs =
      { factor_id := f.factor_id, median_level := some (medOf rs),
        mean_level := some (meanOf rs),
        proficiency_median :=
          if hp then medianStrict (rs.map (fun r => r.proficiency_level))
          else some (medOf rs),
        coverage_median :=
          if hc then medianStrict (rs.map (fun r => r.coverage_level))
          else some (medOf rs),
        n_responses := rs.length,
        dispersion := some (dispOf rs),
        confidence_avg :=
          if hcf then meanSkipNA (rs.map (fun r => r.confidence)) else some (7/2),
        evidence_rate := some (evRateOf f rs),
        index_raw := medOf rs,
        quality_penalty := penaltyOf f rs,
        index_adjusted := max 1 (medOf rs - penaltyOf f rs),
        area := f.area, factor_name := f.factor_name, weight := f.weight,
        target_level := f.target_level, owner_group := f.owner_group,
        evidence_required := f.evidence_required } := by
  unfold scoreFactor
  rw [hne]
  exact if_neg Bool.false_ne_true

/-! ### Claim theorems -/

/-- C8 (counterexample): The claim quotes the return value for
`classify(4, 2)` as the string `"Strong, not yet scaled"`, but
`get_combined_maturity_quadrant 4 2` returns the full label
`"Strong practices not yet scaled across the organisation"`, a different
string. -/
theorem c8_short_label_counterexample :
    get_combined_maturity_quadrant 4 2 =
      "Strong practices not yet scaled across the organisation" ∧
    get_combined_maturity_quadrant 4 2 ≠ "Strong, not yet scaled" := by
  constructor
  · rfl
  · decide

/-- C8 (amended): the classifier thresholds each axis at
3.0, inclusive on the high side, and returns the four quadrant labels of the
source — high/high the institutional label, high proficiency/low coverage the
strong-not-scaled label, low proficiency/high coverage the widespread label,
low/low the early-stage label; in particular `classify 4 2` lands in the
strong-not-scaled quadrant. -/
theorem c8_quadrant_thresholds (p c : ℚ) :
    (3 ≤ p → 3 ≤ c →
      get_combined_maturity_quadrant p c = "Institutional maturity and stable programme") ∧
    (3 ≤ p → c < 3 →
      get_combined_maturity_quadrant p c =
        "Strong practices not yet scaled across the organisation") ∧
    (p < 3 → 3 ≤ c →
      get_combined_maturity_quadrant p c =
        "Widespread implementation requiring quality improvement") ∧
    (p < 3 → c < 3 →
      get_combined_maturity_quadrant p c =
        "Early-stage capability requiring structural improvements") := by
  unfold get_combined_maturity_quadrant
  refine ⟨fun h1 h2 => ?_, fun h1 h2 => ?_, fun h1 h2 => ?_, fun h1 h2 => ?_⟩
  · rw [decide_eq_true h1, decide_eq_true h2]
    rfl
  · rw [decide_eq_true h1, decide_eq_false (not_le.mpr h2)]
    rfl
  · rw [decide_eq_false (not_le.mpr h1), decide_eq_true h2]
    rfl
  · rw [decide_eq_false (not_le.mpr h1), decide_eq_false (not_le.mpr h2)]
    rfl

/-- Witness for C8: the amended theorem applied at `(4, 2)`. -/
theorem c8_quadrant_thresholds_witness :
    get_combined_maturity_quadrant 4 2 =
      "Strong practices not yet scaled across the organisation" :=
  (c8_quadrant_thresholds 4 2).2.1 (by norm_num) (by norm_num)

/-- C10: passing the sentinel `'All'` or the empty string as the group
filter gives exactly the result of passing no filter at all: the restriction
in `compute_factor_scores` runs only under
`org_group_filter and org_group_filter != 'All'`. -/
theorem c10_group_filter_sentinels (df : ResponsesDF) (factors : List Factor)
    (cycle_id : String) :
    computeFactorScores df factors cycle_id (some "All") =
      computeFactorScores df factors cycle_id none ∧
    computeFactorScores df factors cycle_id (some "") =
      computeFactorScores df factors cycle_id none := by
  have hNone : ∀ rows : List Response, applyGroupFilter none rows = rows := fun _ => rfl
  have hAll : ∀ rows : List Response, applyGroupFilter (some "All") rows = rows := by
    intro rows
    simp only [applyGroupFilter]
    rw [if_neg]
    intro hcon
    exact hcon.2 rfl
  have hEmpty : ∀ rows : List Response, applyGroupFilter (some "") rows = rows := by
    intro rows
    simp only [applyGroupFilter]
    rw [if_neg]
    intro hcon
    exact hcon.1 rfl
  constructor
  · simp only [computeFactorScores, hAll, hNone]
  · simp only [computeFactorScores, hEmpty, hNone]

/-- C7 (counterexample): the claim keeps a row whose optional
`proficiency_level` is absent ("when present" exempts it), but with the
column present in the DataFrame and the cell `NaN`, pandas `between(1, 5)` is
`False` on `NaN` and `validate_responses` drops the row: on one valid-factor
level-3 row with `proficiency_level = NaN` in a present column the code
returns the empty collection while the claim keeps the row. -/
theorem c7_per_row_counterexample :
    (validate_responses
        ⟨[⟨"c1", "p1", "g1", "F1", 3, none, none, none, none⟩], true, false, false⟩
        [⟨"F1", "A", "Factor one", 1, 3, "G", false⟩]).rows = [] ∧
    ([⟨"c1", "p1", "g1", "F1", 3, none, none, none, none⟩] : List Response).filter
      (fun r =>
        (([⟨"F1", "A", "Factor one", 1, 3, "G", false⟩] : List Factor).map
            (fun f => f.factor_id)).contains r.factor_id &&
        decide (1 ≤ r.level ∧ r.level ≤ 5) &&
        r.proficiency_level.all (fun v => decide (1 ≤ v ∧ v ≤ 5)) &&
        r.coverage_level.all (fun v => decide (1 ≤ v ∧ v ≤ 5))) =
      [⟨"c1", "p1", "g1", "F1", 3, none, none, none, none⟩] ∧
    ([] : List Response) ≠ [⟨"c1", "p1", "g1", "F1", 3, none, none, none, none⟩] := by
  refine ⟨by decide, by decide, by decide⟩

/-- C7 (amended): the validator keeps exactly the input rows whose
`factor_id` is in the catalog, whose `level` is in `[1,5]`, and — for each
optional rating column that exists in the DataFrame — whose value is present
and in `[1,5]` (a `NaN` cell in an existing column drops the row, since
pandas `between` is `False` on `NaN`; an absent column imposes no
constraint); it is a pure filter (no error is possible) and leaves the
column flags unchanged. -/
theorem c7_validator_column_filters (df : ResponsesDF) (factors : List Factor) :
    (validate_responses df factors).rows = df.rows.filter (fun r =>
      (factors.map (fun f => f.factor_id)).contains r.factor_id &&
      decide (1 ≤ r.level ∧ r.level ≤ 5) &&
      (!df.has_prof || r.proficiency_level.any (fun v => decide (1 ≤ v ∧ v ≤ 5))) &&
      (!df.has_cov || r.coverage_level.any (fun v => decide (1 ≤ v ∧ v ≤ 5)))) ∧
    (validate_responses df factors).has_prof = df.has_prof ∧
    (validate_responses df factors).has_cov = df.has_cov ∧
    (validate_responses df factors).has_conf = df.has_conf := by
  refine ⟨?_, rfl, rfl, rfl⟩
  simp only [validate_responses]
  cases hprof : df.has_prof <;> cases hcov : df.has_cov <;>
    simp only [Bool.false_eq_true, if_false, if_true] <;>
    (repeat rw [List.filter_filter]) <;>
    (apply List.filter_congr; intro r hr) <;>
    cases r.proficiency_level <;> cases r.coverage_level <;>
    simp [Bool.and_comm, Bool.and_left_comm, Bool.and_assoc]

/-- C1: For every row the scorer emits for a factor with at least one
matching response, `quality_penalty` is the sum of the three independent 0.5
increments (low participation, high dispersion, missing required evidence),
hence one of 0, 0.5, 1, 1.5 and at most 1.5, and
`index_adjusted = max(1, median_level - quality_penalty)`. -/
theorem c1_quality_penalty (df : ResponsesDF) (factors : List Factor) (cycle_id : String)
    (filt : Option String) (row : FactorScore)
    (hrow : row ∈ computeFactorScores df factors cycle_id filt)
    (hn : 0 < row.n_responses) :
    ∃ m d e, row.median_level = some m ∧ row.dispersion = some d ∧
      row.evidence_rate = some e ∧
      row.quality_penalty =
        (if row.n_responses < 3 then (1 : ℚ)/2 else 0) +
        (if (3 : ℚ)/2 < d then (1 : ℚ)/2 else 0) +
        (if row.evidence_required = true ∧ e < 1/2 then (1 : ℚ)/2 else 0) ∧
      (row.quality_penalty = 0 ∨ row.quality_penalty = 1/2 ∨ row.quality_penalty = 1 ∨
        row.quality_penalty = 3/2) ∧
      row.quality_penalty ≤ 3/2 ∧
      row.index_adjusted = max 1 (m - row.quality_penalty) := by
  simp only [computeFactorScores] at hrow
  obtain ⟨f, hf, rfl⟩ := List.mem_map.mp hrow
  rw [scoreFactor_n_responses] at hn
  have hne := length_pos_isEmpty_false hn
  rw [scoreFactor_of_not_empty _ _ _ _ _ hne]
  refine ⟨_, _, _, rfl, rfl, rfl, rfl, ?_, ?_, rfl⟩
  · unfold penaltyOf
    split_ifs <;> norm_num
  · unfold penaltyOf
    split_ifs <;> norm_num

/-- Witness for C1: the theorem applied to a single factor with one response
of level 3 (the emitted row has penalty 0.5, only for low participation). -/
theorem c1_quality_penalty_witness :
    (scoreFactor false false false ⟨"F1", "A", "Factor one", 1, 4, "G", false⟩
        ((applyGroupFilter none
            (([⟨"c1", "p1", "g1", "F1", 3, none, none, none, none⟩] : List Response).filter
              (fun r => r.cycle_id == "c1"))).filter
          (fun r => r.factor_id == "F1"))).quality_penalty ≤ 3/2 := by
  obtain ⟨m, d, e, h1, h2, h3, h4, h5, h6, h7⟩ :=
    c1_quality_penalty
      ⟨[⟨"c1", "p1", "g1", "F1", 3, none, none, none, none⟩], false, false, false⟩
      [⟨"F1", "A", "Factor one", 1, 4, "G", false⟩] "c1" none _
      (List.mem_map.mpr ⟨_, List.mem_cons_self _ _, rfl⟩)
      (by rw [scoreFactor_n_responses]; decide)
  exact h6

/-- C5 (counterexample): The claim says every statistic except
`index_adjusted` is undefined/NaN on a zero-response row, but the emitted row
carries the defined values `evidence_rate = 0.0`, `index_raw = 1.0` and
`quality_penalty = 0.0` (lines 64-66 of `scoring.py`). -/
theorem c5_nan_claim_counterexample :
    ∃ row ∈ computeFactorScores ⟨[], false, false, false⟩
        [⟨"F0", "A", "Factor zero", 1, 3, "G", false⟩] "c1" none,
      row.n_responses = 0 ∧ row.evidence_rate = some 0 ∧ row.evidence_rate ≠ none ∧
      row.index_raw = 1 ∧ row.quality_penalty = 0 :=
  ⟨_, List.mem_map.mpr ⟨_, List.mem_cons_self _ _, rfl⟩, rfl, rfl,
    Option.some_ne_none 0, rfl, rfl⟩

/-- C5 (amended): On a zero-response row the six statistics
`median_level`, `mean_level`, `proficiency_median`, `coverage_median`,
`dispersion`, `confidence_avg` are NaN, while `evidence_rate = 0.0`,
`index_raw = 1.0`, `quality_penalty = 0.0` and `index_adjusted = 1.0` are
defined; the row stays distinguishable via `n_responses == 0`. -/
theorem c5_zero_response_row (df : ResponsesDF) (factors : List Factor) (cycle_id : String)
    (filt : Option String) (row : FactorScore)
    (hrow : row ∈ computeFactorScores df factors cycle_id filt)
    (hn : row.n_responses = 0) :
    row.median_level = none ∧ row.mean_level = none ∧ row.proficiency_median = none ∧
    row.coverage_median = none ∧ row.dispersion = none ∧ row.confidence_avg = none ∧
    row.evidence_rate = some 0 ∧ row.index_raw = 1 ∧ row.quality_penalty = 0 ∧
    row.index_adjusted = 1 := by
  simp only [computeFactorScores] at hrow
  obtain ⟨f, hf, rfl⟩ := List.mem_map.mp hrow
  rw [scoreFactor_n_responses] at hn
  have h0 := List.length_eq_zero.mp hn
  rw [h0]
  exact ⟨rfl, rfl, rfl, rfl, rfl, rfl, rfl, rfl, rfl, rfl⟩

/-- Witness for C5: the amended theorem applied to an empty response set. -/
theorem c5_zero_response_row_witness :
    (scoreFactor false false false ⟨"F0", "A", "Factor zero", 1, 3, "G", false⟩
        ((applyGroupFilter none
            (([] : List Response).filter (fun r => r.cycle_id == "c1"))).filter
          (fun r => r.factor_id == "F0"))).index_adjusted = 1 := by
  obtain ⟨h1, h2, h3, h4, h5, h6, h7, h8, h9, h10⟩ :=
    c5_zero_response_row ⟨[], false, false, false⟩
      [⟨"F0", "A", "Factor zero", 1, 3, "G", false⟩] "c1" none _
      (List.mem_map.mpr ⟨_, List.mem_cons_self _ _, rfl⟩) (by decide)
  exact h10

lemma penaltyOf_nonneg (f : Factor) (rs : List Response) : 0 ≤ penaltyOf f rs := by
  unfold penaltyOf
  split_ifs <;> norm_num

/-- C6: Every row produced from validated responses (all levels in
`[1,5]`) satisfies `1 ≤ index_adjusted ≤ index_raw ≤ 5`. -/
theorem c6_index_chain (df : ResponsesDF) (factors : List Factor) (cycle_id : String)
    (filt : Option String)
    (hlev : ∀ r ∈ df.rows, 1 ≤ r.level ∧ r.level ≤ 5) (row : FactorScore)
    (hrow : row ∈ computeFactorScores df factors cycle_id filt) :
    1 ≤ row.index_adjusted ∧ row.index_adjusted ≤ row.index_raw ∧ row.index_raw ≤ 5 := by
  simp only [computeFactorScores] at hrow
  obtain ⟨f, hf, rfl⟩ := List.mem_map.mp hrow
  have hsub : ∀ r ∈ (applyGroupFilter filt
      (df.rows.filter (fun r => r.cycle_id == cycle_id))).filter
      (fun r => r.factor_id == f.factor_id), 1 ≤ r.level ∧ r.level ≤ 5 := by
    intro r hr
    have h1 := (List.mem_filter.mp hr).1
    have h2 := mem_applyGroupFilter h1
    exact hlev r (List.mem_filter.mp h2).1
  cases hcase : ((applyGroupFilter filt
      (df.rows.filter (fun r => r.cycle_id == cycle_id))).filter
      (fun r => r.factor_id == f.factor_id)).isEmpty with
  | true =>
    have h0 := List.isEmpty_iff.mp hcase
    rw [h0]
    exact ⟨le_refl _, le_refl _, (by norm_num : (1 : ℚ) ≤ 5)⟩
  | false =>
    have hrsne : (applyGroupFilter filt
        (df.rows.filter (fun r => r.cycle_id == cycle_id))).filter
        (fun r => r.factor_id == f.factor_id) ≠ [] := by
      intro hc
      rw [hc] at hcase
      simp at hcase
    have hlevne : levelsOf ((applyGroupFilter filt
        (df.rows.filter (fun r => r.cycle_id == cycle_id))).filter
        (fun r => r.factor_id == f.factor_id)) ≠ [] := by
      unfold levelsOf
      intro hc
      exact hrsne (List.map_eq_nil_iff.mp hc)
    have hbnd : ∀ x ∈ levelsOf ((applyGroupFilter filt
        (df.rows.filter (fun r => r.cycle_id == cycle_id))).filter
        (fun r => r.factor_id == f.factor_id)), 1 ≤ x ∧ x ≤ 5 := by
      intro x hx
      obtain ⟨r, hr, rfl⟩ := List.mem_map.mp hx
      exact hsub r hr
    have hmed : 1 ≤ medOf ((applyGroupFilter filt
        (df.rows.filter (fun r => r.cycle_id == cycle_id))).filter
        (fun r => r.factor_id == f.factor_id)) ∧
        medOf ((applyGroupFilter filt
          (df.rows.filter (fun r => r.cycle_id == cycle_id))).filter
          (fun r => r.factor_id == f.factor_id)) ≤ 5 :=
      percentileD_bounds hlevne (by norm_num) (by norm_num) hbnd
    rw [scoreFactor_of_not_empty _ _ _ _ _ hcase]
    refine ⟨le_max_left _ _, max_le hmed.1 ?_, hmed.2⟩
    linarith [penaltyOf_nonneg f ((applyGroupFilter filt
      (df.rows.filter (fun r => r.cycle_id == cycle_id))).filter
      (fun r => r.factor_id == f.factor_id))]

/-- Witness for C6: the theorem applied to a catalog of one factor with one
level-3 response. -/
theorem c6_index_chain_witness :
    1 ≤ (scoreFactor false false false ⟨"F1", "A", "Factor one", 1, 4, "G", false⟩
        ((applyGroupFilter none
            (([⟨"c1", "p1", "g1", "F1", 3, none, none, none, none⟩] : List Response).filter
              (fun r => r.cycle_id == "c1"))).filter
          (fun r => r.factor_id == "F1"))).index_adjusted := by
  obtain ⟨h1, h2, h3⟩ :=
    c6_index_chain ⟨[⟨"c1", "p1", "g1", "F1", 3, none, none, none, none⟩], false, false, false⟩
      [⟨"F1", "A", "Factor one", 1, 4, "G", false⟩] "c1" none
      (by
        intro r hr
        rcases List.mem_singleton.mp hr with rfl
        exact ⟨by norm_num, by norm_num⟩) _
      (List.mem_map.mpr ⟨_, List.mem_cons_self _ _, rfl⟩)
  exact h1

/-- C4: the gap analyzer emits one Gap row for exactly the
(factor, action) pairs with a positive gap (current level being the median,
or 1.0 when undefined) whose action references the factor and satisfies
`if_level_leq ≥ current_level`; no emitted row has `gap_levels ≤ 0`; and the
output is sorted non-increasingly by `priority_score`. -/
theorem c4_gap_rows (scores : List FactorScore) (actions : List Action) :
    (∀ g, g ∈ computeGapAnalysis scores actions ↔
      ∃ row ∈ scores, ∃ a ∈ actions,
        0 < max 0 (row.target_level - row.median_level.getD 1) ∧
        a.factor_id = row.factor_id ∧
        row.median_level.getD 1 ≤ a.if_level_leq ∧
        g = mkGap row a) ∧
    (∀ g ∈ computeGapAnalysis scores actions, 0 < g.gap_levels) ∧
    List.Sorted (fun g1 g2 => g2.priority_score ≤ g1.priority_score)
      (computeGapAnalysis scores actions) := by
  refine ⟨fun g => mem_computeGapAnalysis, ?_, sorted_computeGapAnalysis scores actions⟩
  intro g hg
  obtain ⟨row, hrow, a, ha, hgap, hfid, hlev, rfl⟩ := mem_computeGapAnalysis.mp hg
  rw [gap_levels_mkGap]
  exact hgap

/-- Witness for C4: the theorem applied to one factor-score row with median 2,
target 4, and one applicable action. -/
theorem c4_gap_rows_witness :
    0 < (mkGap ⟨"F1", some 2, some 2, some 2, some 2, 5, some 0, some (7/2), some 1, 2, 0, 2,
        "A", "Factor one", 1, 4, "G", false⟩
      ⟨"A1", "F1", 2, "Act", 4, 2, "short", none⟩).gap_levels :=
  (c4_gap_rows
      [⟨"F1", some 2, some 2, some 2, some 2, 5, some 0, some (7/2), some 1, 2, 0, 2,
        "A", "Factor one", 1, 4, "G", false⟩]
      [⟨"A1", "F1", 2, "Act", 4, 2, "short", none⟩]).2.1 _
    (((c4_gap_rows
        [⟨"F1", some 2, some 2, some 2, some 2, 5, some 0, some (7/2), some 1, 2, 0, 2,
          "A", "Factor one", 1, 4, "G", false⟩]
        [⟨"A1", "F1", 2, "Act", 4, 2, "short", none⟩]).1 _).mpr
      ⟨_, List.mem_cons_self _ _, _, List.mem_cons_self _ _,
        (show (0:ℚ) < max 0 (4 - Option.getD (some 2) 1) by norm_num), rfl,
        (show Option.getD (some (2:ℚ)) 1 ≤ 2 by norm_num), rfl⟩)

/-- C2 (counterexample): A factor with zero responses, `target_level = 3`
and an applicable action does produce a Gap row (with `current_level` the 1.0
default and `priority_score` carrying the flat `quality_factor = 0.1`), so the
`n_responses == 0` branch of the gap analyzer is reachable. -/
theorem c2_dead_branch_counterexample :
    ∃ g ∈ computeGapAnalysis
        (computeFactorScores ⟨[], false, false, false⟩
          [⟨"F0", "A", "Factor zero", 1, 3, "G", false⟩] "c1" none)
        [⟨"A0", "F0", 2, "Act", 4, 2, "short", none⟩],
      g.factor_id = "F0" ∧ g.current_level = 1 ∧ g.priority_score = 2/5 ∧
      ∃ row ∈ computeFactorScores ⟨[], false, false, false⟩
          [⟨"F0", "A", "Factor zero", 1, 3, "G", false⟩] "c1" none,
        row.n_responses = 0 ∧ g.factor_id = row.factor_id := by
  refine ⟨mkGap (scoreFactor false false false
      ⟨"F0", "A", "Factor zero", 1, 3, "G", false⟩ []) ⟨"A0", "F0", 2, "Act", 4, 2, "short", none⟩,
    mem_computeGapAnalysis.mpr
      ⟨scoreFactor false false false ⟨"F0", "A", "Factor zero", 1, 3, "G", false⟩ [],
        List.mem_map.mpr ⟨_, List.mem_cons_self _ _, by rfl⟩,
        _, List.mem_cons_self _ _,
        (show (0:ℚ) < max 0 (3 - Option.getD none 1) by norm_num), rfl,
        (show Option.getD (none : Option ℚ) 1 ≤ 2 by norm_num), rfl⟩,
    rfl, rfl,
    (show (4:ℚ) * max 0 (3 - Option.getD none 1) * 1 / max 2 1 * (1/10) = 2/5 by norm_num),
    scoreFactor false false false ⟨"F0", "A", "Factor zero", 1, 3, "G", false⟩ [],
    List.mem_map.mpr ⟨_, List.mem_cons_self _ _, by rfl⟩, rfl, rfl⟩

/-- C2 (amended): Zero-response factors are not excluded from the gap
analysis: whenever a factor has no matching responses, `target_level > 1` and
some action with matching `factor_id` and `if_level_leq ≥ 1` exists, the
analyzer emits a Gap row for it, with `current_level = 1` (the NaN-median
default) and the flat `quality_factor = 0.1`; the `n_responses == 0` branch
is live code. -/
theorem c2_zero_response_gap (df : ResponsesDF) (factors : List Factor) (cycle_id : String)
    (filt : Option String) (actions : List Action) (f : Factor) (a : Action)
    (hf : f ∈ factors) (ha : a ∈ actions)
    (hempty : (applyGroupFilter filt (df.rows.filter (fun r => r.cycle_id == cycle_id))).filter
        (fun r => r.factor_id == f.factor_id) = [])
    (htarget : 1 < f.target_level)
    (hfid : a.factor_id = f.factor_id) (hlev : 1 ≤ a.if_level_leq) :
    ∃ g ∈ computeGapAnalysis (computeFactorScores df factors cycle_id filt) actions,
      g.factor_id = f.factor_id ∧ g.current_level = 1 ∧
      g.gap_levels = f.target_level - 1 ∧
      g.priority_score =
        a.impact * (f.target_level - 1) * f.weight / max a.effort 1 * (1/10) := by
  have hrowmem : scoreFactor df.has_prof df.has_cov df.has_conf f [] ∈
      computeFactorScores df factors cycle_id filt := by
    simp only [computeFactorScores]
    refine List.mem_map.mpr ⟨f, hf, ?_⟩
    rw [hempty]
  refine ⟨mkGap (scoreFactor df.has_prof df.has_cov df.has_conf f []) a,
    mem_computeGapAnalysis.mpr
      ⟨scoreFactor df.has_prof df.has_cov df.has_conf f [], hrowmem, a, ha,
        (show (0:ℚ) < max 0 (f.target_level - Option.getD none 1) by
          simp only [Option.getD_none]
          exact lt_max_iff.mpr (Or.inr (by linarith))),
        (show a.factor_id = f.factor_id from hfid),
        (show Option.getD (none : Option ℚ) 1 ≤ a.if_level_leq by
          simpa using hlev), rfl⟩,
    rfl, rfl, ?_, ?_⟩
  · show max 0 (f.target_level - Option.getD none 1) = f.target_level - 1
    simp only [Option.getD_none]
    exact max_eq_right (by linarith)
  · show a.impact * max 0 (f.target_level - Option.getD none 1) * f.weight /
        max a.effort 1 * (1/10) =
      a.impact * (f.target_level - 1) * f.weight / max a.effort 1 * (1/10)
    simp only [Option.getD_none]
    rw [max_eq_right (by linarith : (0:ℚ) ≤ f.target_level - 1)]

/-- Witness for C2: the amended theorem applied to the concrete zero-response
factor of the counterexample. -/
theorem c2_zero_response_gap_witness :
    ∃ g ∈ computeGapAnalysis
        (computeFactorScores ⟨[], false, false, false⟩
          [⟨"F0", "A", "Factor zero", 1, 3, "G", false⟩] "c1" none)
        [⟨"A0", "F0", 2, "Act", 4, 2, "short", none⟩],
      g.factor_id = "F0" ∧ g.current_level = 1 ∧ g.gap_levels = (3:ℚ) - 1 ∧
      g.priority_score = 4 * ((3:ℚ) - 1) * 1 / max 2 1 * (1/10) :=
  c2_zero_response_gap ⟨[], false, false, false⟩ _ "c1" none _
    ⟨"F0", "A", "Factor zero", 1, 3, "G", false⟩
    ⟨"A0", "F0", 2, "Act", 4, 2, "short", none⟩
    (List.mem_cons_self _ _) (List.mem_cons_self _ _) rfl (by norm_num) rfl (by norm_num)

/-- C3: Every Gap row comes from a (row, action) pair, and when the row
has `n_responses > 0` its `priority_score` is
`(impact × gap_levels × weight) / max(effort, 1)` times
`q_response × q_dispersion × q_evidence` with `q_response = min(1, n/5)`,
`q_dispersion = max(0, 1 - dispersion/2)` (0.5 when dispersion is NaN) and
`q_evidence = evidence_rate`; in the spec's scenario (target 4, median 2, one
action with `if_level_leq = 2`, impact 4, effort 2, weight 1, quality factor
1) the single row has `gap_levels = 2` and `priority_score = 4`. -/
theorem c3_priority_formula :
    (∀ (scores : List FactorScore) (actions : List Action) (g : Gap),
      g ∈ computeGapAnalysis scores actions →
      ∃ row ∈ scores, ∃ a ∈ actions, g = mkGap row a ∧
        (0 < row.n_responses →
          g.priority_score =
            a.impact * max 0 (row.target_level - row.median_level.getD 1) * row.weight /
                max a.effort 1 *
              (min 1 ((row.n_responses : ℚ) / 5) *
               (match row.dispersion with
                | some d => max 0 (1 - d / 2)
                | none => (1 : ℚ)/2) *
               row.evidence_rate.getD 0))) ∧
    computeGapAnalysis
        [⟨"F1", some 2, some 2, some 2, some 2, 5, some 0, some (7/2), some 1, 2, 0, 2,
          "A", "Factor one", 1, 4, "G", false⟩]
        [⟨"A1", "F1", 2, "Act", 4, 2, "short", none⟩] =
      [mkGap ⟨"F1", some 2, some 2, some 2, some 2, 5, some 0, some (7/2), some 1, 2, 0, 2,
          "A", "Factor one", 1, 4, "G", false⟩ ⟨"A1", "F1", 2, "Act", 4, 2, "short", none⟩] ∧
    (mkGap ⟨"F1", some 2, some 2, some 2, some 2, 5, some 0, some (7/2), some 1, 2, 0, 2,
        "A", "Factor one", 1, 4, "G", false⟩
      ⟨"A1", "F1", 2, "Act", 4, 2, "short", none⟩).gap_levels = 2 ∧
    (mkGap ⟨"F1", some 2, some 2, some 2, some 2, 5, some 0, some (7/2), some 1, 2, 0, 2,
        "A", "Factor one", 1, 4, "G", false⟩
      ⟨"A1", "F1", 2, "Act", 4, 2, "short", none⟩).priority_score = 4 := by
  refine ⟨?_, ?_, ?_, ?_⟩
  · intro scores actions g hg
    obtain ⟨row, hrow, a, ha, hgap, hfid, hlev, rfl⟩ := mem_computeGapAnalysis.mp hg
    refine ⟨row, hrow, a, ha, rfl, ?_⟩
    intro hn
    simp only [mkGap]
    rw [if_pos hn]
  · have h1 : gapsForRow
        ⟨"F1", some 2, some 2, some 2, some 2, 5, some 0, some (7/2), some 1, 2, 0, 2,
          "A", "Factor one", 1, 4, "G", false⟩ [⟨"A1", "F1", 2, "Act", 4, 2, "short", none⟩] =
        [mkGap ⟨"F1", some 2, some 2, some 2, some 2, 5, some 0, some (7/2), some 1, 2, 0, 2,
          "A", "Factor one", 1, 4, "G", false⟩ ⟨"A1", "F1", 2, "Act", 4, 2, "short", none⟩] := by
      simp only [gapsForRow]
      rw [if_neg (by norm_num :
        ¬(max (0:ℚ) (4 - Option.getD (some 2) 1) ≤ 0))]
      rw [List.filter_cons_of_pos (by simp)]
      rfl
    show List.insertionSort gapGE
        (([⟨"F1", some 2, some 2, some 2, some 2, 5, some 0, some (7/2), some 1, 2, 0, 2,
            "A", "Factor one", 1, 4, "G", false⟩].map
          (fun row => gapsForRow row [⟨"A1", "F1", 2, "Act", 4, 2, "short", none⟩])).flatten) =
      [mkGap ⟨"F1", some 2, some 2, some 2, some 2, 5, some 0, some (7/2), some 1, 2, 0, 2,
          "A", "Factor one", 1, 4, "G", false⟩ ⟨"A1", "F1", 2, "Act", 4, 2, "short", none⟩]
    rw [List.map_cons, List.map_nil, h1]
    rfl
  · show max 0 ((4:ℚ) - Option.getD (some 2) 1) = 2
    norm_num
  · show (4:ℚ) * max 0 (4 - Option.getD (some 2) 1) * 1 / max 2 1 *
        (min 1 (((5:ℕ):ℚ) / 5) * max 0 (1 - 0 / 2) * Option.getD (some 1) 0) = 4
    norm_num

/-- Witness for C3: the general formula applied to the scenario row. -/
theorem c3_priority_formula_witness :
    ∃ row ∈ [(⟨"F1", some 2, some 2, some 2, some 2, 5, some 0, some (7/2), some 1, 2, 0, 2,
        "A", "Factor one", 1, 4, "G", false⟩ : FactorScore)],
      ∃ a ∈ [(⟨"A1", "F1", 2, "Act", 4, 2, "short", none⟩ : Action)],
        mkGap ⟨"F1", some 2, some 2, some 2, some 2, 5, some 0, some (7/2), some 1, 2, 0, 2,
            "A", "Factor one", 1, 4, "G", false⟩
          ⟨"A1", "F1", 2, "Act", 4, 2, "short", none⟩ = mkGap row a ∧
        (0 < row.n_responses →
          (mkGap ⟨"F1", some 2, some 2, some 2, some 2, 5, some 0, some (7/2), some 1, 2, 0, 2,
              "A", "Factor one", 1, 4, "G", false⟩
            ⟨"A1", "F1", 2, "Act", 4, 2, "short", none⟩).priority_score =
            a.impact * max 0 (row.target_level - row.median_level.getD 1) * row.weight /
                max a.effort 1 *
              (min 1 ((row.n_responses : ℚ) / 5) *
               (match row.dispersion with
                | some d => max 0 (1 - d / 2)
                | none => (1 : ℚ)/2) *
               row.evidence_rate.getD 0)) :=
  c3_priority_formula.1
    [⟨"F1", some 2, some 2, some 2, some 2, 5, some 0, some (7/2), some 1, 2, 0, 2,
      "A", "Factor one", 1, 4, "G", false⟩]
    [⟨"A1", "F1", 2, "Act", 4, 2, "short", none⟩] _
    (mem_computeGapAnalysis.mpr
      ⟨_, List.mem_cons_self _ _, _, List.mem_cons_self _ _,
        (show (0:ℚ) < max 0 (4 - Option.getD (some 2) 1) by norm_num), rfl,
        (show Option.getD (some (2:ℚ)) 1 ≤ 2 by norm_num), rfl⟩)

/-- C9: For an area all of whose member rows have positive weight,
`area_index` is the weight-weighted mean of the members' `index_adjusted`
and lies between any lower/upper bounds on those values (in particular
between their minimum and maximum); when the members' total weight is zero,
`area_index` defaults to 1.0. -/
theorem c9_area_weighted_mean (scores : List FactorScore) (s : AreaScore)
    (hs : s ∈ computeAreaScores scores) :
    ((∀ r ∈ scores.filter (fun r => r.area == s.area), 0 < r.weight) →
      s.area_index =
        ((scores.filter (fun r => r.area == s.area)).map
          (fun r => r.index_adjusted * r.weight)).sum /
        ((scores.filter (fun r => r.area == s.area)).map (fun r => r.weight)).sum ∧
      ∀ lo hi, (∀ r ∈ scores.filter (fun r => r.area == s.area),
          lo ≤ r.index_adjusted ∧ r.index_adjusted ≤ hi) →
        lo ≤ s.area_index ∧ s.area_index ≤ hi) ∧
    (((scores.filter (fun r => r.area == s.area)).map (fun r => r.weight)).sum = 0 →
      s.area_index = 1) := by
  simp only [computeAreaScores] at hs
  obtain ⟨a, ha, rfl⟩ := List.mem_map.mp hs
  have harea : (areaScoreFor a (scores.filter (fun r => r.area == a))).area = a := rfl
  rw [harea]
  have hmem : a ∈ scores.map (fun r => r.area) := mem_uniqueKeysAux ha
  obtain ⟨r0, hr0, hr0a⟩ := List.mem_map.mp hmem
  have hne : scores.filter (fun r => r.area == a) ≠ [] := by
    intro hc
    have hin : r0 ∈ scores.filter (fun r => r.area == a) :=
      List.mem_filter.mpr ⟨hr0, by simp [hr0a]⟩
    rw [hc] at hin
    exact absurd hin (List.not_mem_nil r0)
  constructor
  · intro hw
    have hpos : 0 < ((scores.filter (fun r => r.area == a)).map (fun r => r.weight)).sum :=
      sum_weights_pos hne hw
    have hidx : (areaScoreFor a (scores.filter (fun r => r.area == a))).area_index =
        ((scores.filter (fun r => r.area == a)).map
          (fun r => r.index_adjusted * r.weight)).sum /
        ((scores.filter (fun r => r.area == a)).map (fun r => r.weight)).sum := by
      simp only [areaScoreFor]
      rw [if_pos hpos]
    refine ⟨hidx, ?_⟩
    intro lo hi hb
    rw [hidx]
    constructor
    · rw [le_div_iff₀ hpos]
      exact le_sum_map_of_le (fun r hr => (hb r hr).1) (fun r hr => le_of_lt (hw r hr))
    · rw [div_le_iff₀ hpos]
      exact sum_map_le_of_le (fun r hr => (hb r hr).2) (fun r hr => le_of_lt (hw r hr))
  · intro h0
    simp only [areaScoreFor]
    rw [h0]
    rw [if_neg (lt_irrefl 0)]

/-- Witness for C9: the theorem applied to one area with a single member of
weight 1 and `index_adjusted = 2`. -/
theorem c9_area_weighted_mean_witness :
    2 ≤ (areaScoreFor "A"
        (([(⟨"F1", some 2, some 2, some 2, some 2, 5, some 0, some (7/2), some 1, 2, 0, 2,
            "A", "Factor one", 1, 4, "G", false⟩ : FactorScore)]).filter
          (fun r => r.area == "A"))).area_index := by
  obtain ⟨h1, h2⟩ :=
    c9_area_weighted_mean
      [⟨"F1", some 2, some 2, some 2, some 2, 5, some 0, some (7/2), some 1, 2, 0, 2,
        "A", "Factor one", 1, 4, "G", false⟩] _
      (List.mem_map.mpr ⟨"A", by decide, rfl⟩)
  have hw : ∀ r ∈ ([(⟨"F1", some 2, some 2, some 2, some 2, 5, some 0, some (7/2), some 1, 2,
      0, 2, "A", "Factor one", 1, 4, "G", false⟩ : FactorScore)]).filter
      (fun r => r.area == "A"), 0 < r.weight := by
    intro r hr
    rcases List.mem_singleton.mp (List.mem_filter.mp hr).1 with rfl
    norm_num
  have hb := (h1 hw).2 2 2 (by
    intro r hr
    rcases List.mem_singleton.mp (List.mem_filter.mp hr).1 with rfl
    exact ⟨by norm_num, by norm_num⟩)
  exact hb.1

end RMM
